import Mathlib

/-!
Shallow embedding of the shinchan-go repository pieces that the claims
are about.

Part 1: the toy TCP responder (`doSomething` handler and the accept
loop of `main`).  Network I/O outcomes are modelled as environment data
(`ConnBehavior`, `AcceptOutcome`); the handler and the loop are pure
functions producing the trace of observable events (read calls, log
calls, write calls, close calls) together with the process outcome.
`log.Fatalf` terminates the whole process, which the model records as
the `processTerminated` / `terminated` outcome.

Part 2: the mocking example (`ShopModel`, `calculateSalesRatio`).
The fallible database calls return `value x option error` exactly as
the Go `(int, error)` pairs do; Go's runtime panic on integer division
by zero is modelled as the `Except` error branch.
-/

/-- Errors that `conn.Read` can report (values of the Go `error` returned
by `net.Conn.Read`; the model only needs a representative set). -/
inductive ReadErr where
  | eof
  | connReset
deriving DecidableEq, Repr

/-- Errors that `conn.Write` can report. -/
inductive WriteErr where
  | brokenPipe
deriving DecidableEq, Repr

/-- `err.Error()` for the modelled read errors. -/
def readErrMsg : ReadErr → String
  | .eof => "EOF"
  | .connReset => "connection reset by peer"

/-- The I/O behaviour of one accepted connection: what its single
`conn.Read(make([]byte, 1024))` call returns (byte count and error, the
Go `(n, err)` pair), and what its `conn.Write` call would return.  The
handler in the source discards the write result, so `writeResult` is
never inspected by `doSomething` — exactly as in the Go code. -/
structure ConnBehavior where
  readResult : Nat × Option ReadErr
  writeResult : Nat × Option WriteErr
deriving DecidableEq, Repr

/-- The io.Reader contract: a read into a 1024-byte buffer reports at
most 1024 bytes. -/
def ConnBehavior.WF (c : ConnBehavior) : Prop :=
  c.readResult.1 ≤ 1024

instance (c : ConnBehavior) : Decidable c.WF := by
  unfold ConnBehavior.WF
  infer_instance

/-- Observable events emitted by the server code. -/
inductive Event where
  | readCall (bufCap : Nat)
  | logInfo (msg : String)
  | logFatal (msg : String)
  | writeCall (payload : String)
  | closeCall
deriving DecidableEq, Repr

/-- How one run of the handler ends: a normal return, or process
termination via `log.Fatalf`. -/
inductive HandlerOutcome where
  | returned
  | processTerminated
deriving DecidableEq, Repr

/-- The canned response payload written by the handler:
`[]byte("HTTP/1.1 200 OK\r\n\r\nHello, World\r\n")`. -/
def response : String := "HTTP/1.1 200 OK\r\n\r\nHello, World\r\n"

/-- The per-connection handler, translated from `doSomething` in the
source: one read into a 1024-byte buffer; on a read error,
`log.Fatalf("error reading. error: %v" + err.Error())` which terminates
the process; otherwise `slog.Info("number of bytes" + strconv.Itoa(n))`,
then `conn.Write(response)` with the result discarded, then
`conn.Close()`. -/
def doSomething (conn : ConnBehavior) : List Event × HandlerOutcome :=
  match conn.readResult with
  | (_, some e) =>
      ([Event.readCall 1024,
        Event.logFatal ("error reading. error: %v" ++ readErrMsg e)],
       HandlerOutcome.processTerminated)
  | (n, none) =>
      ([Event.readCall 1024,
        Event.logInfo ("number of bytes" ++ toString n),
        Event.writeCall response,
        Event.closeCall],
       HandlerOutcome.returned)

/-- The error classes of `listener.Accept` as the spec's taxonomy names
them.  The source code does not distinguish them: the accept loop treats
every accept error identically. -/
inductive AcceptErr where
  | transient
  | fatal
deriving DecidableEq, Repr

/-- One iteration's input to the accept loop: either an accepted
connection or an accept error. -/
inductive AcceptOutcome where
  | conn (c : ConnBehavior)
  | err (e : AcceptErr)
deriving DecidableEq, Repr

/-- Whether the process is still accepting connections after consuming a
finite prefix of accept outcomes, or has been terminated by a
`log.Fatalf`. -/
inductive ProcStatus where
  | accepting
  | terminated
deriving DecidableEq, Repr

/-- The accept loop of `main`, translated from the source, run on a
finite prefix of accept outcomes.  On an accept error the code calls
`log.Fatalf` (ignoring which kind of error it is), terminating the
process.  On an accepted connection it dispatches `doSomething conn`.
The Go code dispatches with `go`; this model serializes each handler to
completion before the next accept — one admissible schedule — and a
handler's `log.Fatalf` terminates the whole process, so no later
connection is served.  Returns the per-connection handler traces in
order, and the final process status. -/
def mainLoop : List AcceptOutcome → List (List Event) × ProcStatus
  | [] => ([], ProcStatus.accepting)
  | AcceptOutcome.err _ :: _ => ([], ProcStatus.terminated)
  | AcceptOutcome.conn c :: rest =>
      match doSomething c with
      | (tr, HandlerOutcome.processTerminated) => ([tr], ProcStatus.terminated)
      | (tr, HandlerOutcome.returned) =>
          let res := mainLoop rest
          (tr :: res.1, res.2)

/-- The payloads of the write calls in a trace, in order. -/
def writePayloads (tr : List Event) : List String :=
  tr.filterMap fun e =>
    match e with
    | Event.writeCall s => some s
    | _ => none

/-- The buffer capacities of the read calls in a trace, in order. -/
def readCaps (tr : List Event) : List Nat :=
  tr.filterMap fun e =>
    match e with
    | Event.readCall k => some k
    | _ => none

/-- How many times the trace closes the connection. -/
def closeCount (tr : List Event) : Nat :=
  tr.count Event.closeCall

/-- All log messages of a trace (`slog.Info` and `log.Fatalf` alike), in
order. -/
def logMsgs (tr : List Event) : List String :=
  tr.filterMap fun e =>
    match e with
    | Event.logInfo s => some s
    | Event.logFatal s => some s
    | _ => none

/-- The `slog.Info` messages of a trace, in order. -/
def infoMsgs (tr : List Event) : List String :=
  tr.filterMap fun e =>
    match e with
    | Event.logInfo s => some s
    | _ => none

/-- A connection whose read fails (peer closed at once: `Read` reports
`0, io.EOF`). -/
def connReadErr : ConnBehavior :=
  { readResult := (0, some ReadErr.eof), writeResult := (0, none) }

/-- A healthy connection: read succeeds with 5 bytes, write succeeds. -/
def connOK : ConnBehavior :=
  { readResult := (5, none), writeResult := (33, none) }

/-- A connection whose read reports zero bytes with no error. -/
def connZeroOK : ConnBehavior :=
  { readResult := (0, none), writeResult := (33, none) }

/-- A connection whose read succeeds (5 bytes) but whose write fails. -/
def connWriteErr : ConnBehavior :=
  { readResult := (5, none), writeResult := (0, some WriteErr.brokenPipe) }

/-- A database-call error (the Go `error` returned by `QueryRow...Scan`;
the model only needs one representative value). -/
inductive DBErr where
  | queryFailed
deriving DecidableEq, Repr

/-- A Go runtime panic that the embedding makes explicit. -/
inductive GoPanic where
  | divByZero
deriving DecidableEq, Repr

/-- The `ShopModel` interface of the source: anything providing
`CountCustomers` and `CountSales`, each returning the Go pair
`(int, error)`.  The `since` timestamp argument (always
`time.Now().Add(-24h)` at the single call site) is opaque to the claims
and is absorbed into the per-call results of a given model. -/
structure ShopModel where
  CountCustomers : Int × Option DBErr
  CountSales : Int × Option DBErr
deriving DecidableEq, Repr

/-- `fmt.Sprintf("%.2f", float64(q))` for an integer quotient `q`: an
integer value prints with two zero decimals.  (Exact float64 formatting
is outside the embedding; no claim depends on this rendering, only on
which branch of `calculateSalesRatio` is taken.) -/
def formatRatio (q : Int) : String :=
  toString q ++ ".00"

/-- Translated from `calculateSalesRatio` in the source:
`customer, err := shopModel.CountCustomers(since); if err != nil { return "", nil }`,
then `sales, err := shopModel.CountSales(since); if err != nil { return "", nil }`,
then `return fmt.Sprintf("%.2f", float64(customer/sales)), nil`.
Both error branches return the empty string with a `nil` error — the
source discards the underlying error.  Go's `customer/sales` is
truncated integer division and panics when `sales == 0`; the panic is
the `Except.error` branch. -/
def calculateSalesRatio (shopModel : ShopModel) :
    Except GoPanic (String × Option DBErr) :=
  match shopModel.CountCustomers with
  | (_, some _) => Except.ok ("", none)
  | (customer, none) =>
      match shopModel.CountSales with
      | (_, some _) => Except.ok ("", none)
      | (sales, none) =>
          if sales = 0 then
            Except.error GoPanic.divByZero
          else
            Except.ok (formatRatio (customer.tdiv sales), none)

/-- A model whose `CountCustomers` succeeds and whose `CountSales`
reports an error. -/
def errShop : ShopModel :=
  { CountCustomers := (3, none), CountSales := (0, some DBErr.queryFailed) }

/-- A model whose `CountCustomers` succeeds and whose `CountSales`
returns `0` with a `nil` error. -/
def zeroSalesShop : ShopModel :=
  { CountCustomers := (1000, none), CountSales := (0, none) }

/-- Claim C1.  The claim says every accepted connection gets exactly one
response payload written before close, regardless of what the client
sent.  The code violates it: on a connection whose read fails, the
handler calls `log.Fatalf` and terminates the process — no write is ever
issued. -/
theorem readFailure_writes_no_response :
    writePayloads (doSomething connReadErr).1 = [] ∧
    (doSomething connReadErr).2 = HandlerOutcome.processTerminated := by
  exact ⟨rfl, rfl⟩

/-- Claim C2.  The claim says the connection is closed exactly once on
every exit path, including a failed read.  The code violates it: on a
failed read the handler terminates the process via `log.Fatalf` without
ever calling `conn.Close()`, so the Closed state is not reached on that
path. -/
theorem readFailure_skips_close :
    closeCount (doSomething connReadErr).1 = 0 ∧
    (doSomething connReadErr).2 = HandlerOutcome.processTerminated := by
  exact ⟨by decide, rfl⟩

/-- Claim C3.  The claim says a failed or zero-byte read is logged and
the handler proceeds directly to closing the connection without
terminating the process.  The code violates it: a read error terminates
the process (and never closes), and a zero-byte error-free read proceeds
to the write, not directly to the close. -/
theorem readFailure_terminates_process :
    (doSomething connReadErr).2 = HandlerOutcome.processTerminated ∧
    closeCount (doSomething connReadErr).1 = 0 ∧
    (doSomething connZeroOK).1 =
      [Event.readCall 1024, Event.logInfo ("number of bytes0"),
       Event.writeCall response, Event.closeCall] := by
  exact ⟨rfl, by decide, rfl⟩

/-- Claim C4.  The claim says a read or write error inside one handler
never escapes, and the accept loop keeps serving later clients.  The
code violates it: a handler read error calls `log.Fatalf`, which kills
the whole process; with a failing first connection followed by a healthy
one, only one handler trace exists, the process is terminated, and no
response is ever written to anyone. -/
theorem handlerFailure_stops_acceptLoop :
    (mainLoop [AcceptOutcome.conn connReadErr, AcceptOutcome.conn connOK]).1.length = 1 ∧
    (mainLoop [AcceptOutcome.conn connReadErr, AcceptOutcome.conn connOK]).2 =
      ProcStatus.terminated ∧
    writePayloads
      (mainLoop [AcceptOutcome.conn connReadErr, AcceptOutcome.conn connOK]).1.flatten = [] := by
  exact ⟨rfl, rfl, rfl⟩

/-- Claim C5.  The claim says a transient accept error is logged and the
loop continues, with only fatal errors ending the loop.  The code
violates it: any accept error — transient included — triggers
`log.Fatalf`, terminating the whole process before the next (healthy)
connection is served. -/
theorem transientAcceptError_terminates_server :
    mainLoop [AcceptOutcome.err AcceptErr.transient, AcceptOutcome.conn connOK] =
      ([], ProcStatus.terminated) := by
  exact rfl

/-- Claim C6.  The claim says a write failure is logged and terminates
only that handler's work.  The isolation half holds — the connection is
still closed, the handler returns, and a following connection is served —
but the code discards `conn.Write`'s error entirely: on a failing write
the only log message emitted is the byte-count line, so the write
failure is never logged. -/
theorem writeFailure_not_logged :
    logMsgs (doSomething connWriteErr).1 = ["number of bytes5"] ∧
    closeCount (doSomething connWriteErr).1 = 1 ∧
    (doSomething connWriteErr).2 = HandlerOutcome.returned ∧
    (mainLoop [AcceptOutcome.conn connWriteErr, AcceptOutcome.conn connOK]).1.length = 2 := by
  exact ⟨rfl, by decide, rfl, rfl⟩

/-- Claim C7.  On any connection whose read completes with `n` bytes and
no error, the handler's single `slog.Info` line carries exactly `n`
(rendered by `strconv.Itoa`) as the byte count. -/
theorem byteCount_logged_exactly (conn : ConnBehavior) (n : Nat)
    (h : conn.readResult = (n, none)) :
    infoMsgs (doSomething conn).1 = ["number of bytes" ++ toString n] := by
  unfold doSomething
  rw [h]
  rfl

/-- Witness for claim C7 at the zero-byte connection. -/
theorem byteCount_logged_exactly_witness :
    infoMsgs (doSomething connZeroOK).1 = ["number of bytes" ++ toString 0] :=
  byteCount_logged_exactly connZeroOK 0 rfl

/-- Claim C8.  On every path — read success and read failure alike — the
handler issues exactly one read call, with a 1024-byte buffer, and no
second read; by the io.Reader contract (`ConnBehavior.WF`) at most 1024
bytes are therefore read from any connection. -/
theorem single_bounded_read (conn : ConnBehavior) (h : conn.WF) :
    readCaps (doSomething conn).1 = [1024] ∧ conn.readResult.1 ≤ 1024 := by
  refine ⟨?_, h⟩
  unfold doSomething
  rcases hres : conn.readResult with ⟨n, err⟩
  cases err <;> rfl

/-- Witness for claim C8 at a healthy connection. -/
theorem single_bounded_read_witness :
    connOK.WF ∧
      (readCaps (doSomething connOK).1 = [1024] ∧ connOK.readResult.1 ≤ 1024) :=
  ⟨by decide, single_bounded_read connOK (by decide)⟩

/-- Claim C9.  Whenever `CountCustomers` or `CountSales` reports an
error, `calculateSalesRatio` returns the empty string together with a
`nil` error: the underlying error is discarded and invisible to the
caller. -/
theorem countError_discarded (m : ShopModel)
    (h : m.CountCustomers.2.isSome ∨ m.CountSales.2.isSome) :
    calculateSalesRatio m = Except.ok ("", none) := by
  unfold calculateSalesRatio
  rcases hc : m.CountCustomers with ⟨customer, ec⟩
  rcases hs : m.CountSales with ⟨sales, es⟩
  rw [hc, hs] at h
  cases ec with
  | some e => rfl
  | none =>
      cases es with
      | some e => rfl
      | none => simp at h

/-- Witness for claim C9 at a model whose `CountSales` fails. -/
theorem countError_discarded_witness :
    (errShop.CountCustomers.2.isSome ∨ errShop.CountSales.2.isSome) ∧
      calculateSalesRatio errShop = Except.ok ("", none) :=
  ⟨Or.inr (by decide), countError_discarded errShop (Or.inr (by decide))⟩

/-- Claim C10.  Whenever `CountCustomers` succeeds and `CountSales`
returns `0` with a `nil` error, `calculateSalesRatio` reaches the
unguarded integer division `customer/sales` with a zero divisor: the
division-by-zero branch of the embedding (a runtime panic in Go). -/
theorem zeroSales_divByZero (m : ShopModel)
    (h1 : m.CountCustomers.2 = none) (h2 : m.CountSales = (0, none)) :
    calculateSalesRatio m = Except.error GoPanic.divByZero := by
  unfold calculateSalesRatio
  rcases hc : m.CountCustomers with ⟨customer, ec⟩
  rw [hc] at h1
  have hec : ec = none := h1
  subst hec
  rw [h2]
  rfl

/-- Witness for claim C10 at a model with 1000 customers and 0 sales. -/
theorem zeroSales_divByZero_witness :
    zeroSalesShop.CountCustomers.2 = none ∧ zeroSalesShop.CountSales = (0, none) ∧
      calculateSalesRatio zeroSalesShop = Except.error GoPanic.divByZero :=
  ⟨rfl, rfl, zeroSales_divByZero zeroSalesShop rfl rfl⟩
